import Mathlib

/-!
Verification development for the TinyUSB CDC host class driver
(`src/class/cdc/cdc_host.c`).

The driver state is shallowly embedded: the static array `cdch_data` becomes a
`List CdchItf`, machine integers become `Nat` with explicit `% 2^w` at the
points where the C code truncates, callbacks become opaque tags, and every
observable side effect (control-transfer submission, application callback
invocation, host-stack notification) is recorded in an event trace `List Ev`.

The `tu_edpt_stream` primitive lives outside the translated source file; its
operations are modelled from the specification's stream-pair contract and are
marked as such in their doc comments.
-/

/-- The `serial_protocol` discriminator (`SERIAL_PROTOCOL_ACM = 0`,
`SERIAL_PROTOCOL_FTDI = 1`, `SERIAL_PROTOCOL_CP210X = 2`). -/
inductive SerialProtocol where
  | acm
  | ftdi
  | cp210x
deriving DecidableEq, Repr

/-- `xfer_result_t` of the host stack: success or one of the failure kinds. -/
inductive XferResult where
  | success
  | failed
  | stalled
  | timeout
deriving DecidableEq, Repr

/-- A completion callback value.  Function pointers are embedded as opaque
tags: the internal trampoline, the per-variant enumeration functions, and
application callbacks (`user i`; `user 0` plays the role of `NULL`). -/
inductive CompleteFn where
  | trampoline
  | acmConfig
  | ftdiConfig
  | cp210xConfig
  | user (id : Nat)
deriving DecidableEq, Repr

/-- `tusb_control_request_t`: all fields as `Nat`, kept `< 2^16` by the code
that builds them (`tu_htole16` truncation is written as `% 65536`). -/
structure ControlSetup where
  bmRequestType : Nat
  bRequest : Nat
  wValue : Nat
  wIndex : Nat
  wLength : Nat
deriving DecidableEq, Repr

/-- `tuh_xfer_t` as seen by completion callbacks. -/
structure Xfer where
  daddr : Nat
  ep_addr : Nat
  result : XferResult
  setup : ControlSetup
  buffer : List Nat
  complete_cb : CompleteFn
  user_data : Nat
deriving DecidableEq, Repr

/-- Modelled from the spec: state of one `tu_edpt_stream_t` direction (the
stream primitive is an external collaborator; the source file only calls it).
`ff` is the ring-buffer content, `ffSize` its capacity, `epBuf` the endpoint
packet buffer, `epSize` the endpoint packet size, and `xferring` records
whether a transfer is in flight on the endpoint. -/
structure EdptStream where
  ep_addr : Nat
  ff : List Nat
  ffSize : Nat
  epBuf : List Nat
  epSize : Nat
  xferring : Bool
deriving DecidableEq, Repr

/-- One slot of the `cdch_data` table (`cdch_interface_t`).  `line_coding` is
kept as its 7-byte little-endian wire image, since the source updates it with
a byte-wise `memcpy`. -/
structure CdchItf where
  daddr : Nat
  bInterfaceNumber : Nat
  bInterfaceSubClass : Nat
  bInterfaceProtocol : Nat
  serial_protocol : SerialProtocol
  acm_capability : Nat
  ep_notif : Nat
  line_coding : List Nat
  line_state : Nat
  user_control_cb : CompleteFn
  tx : EdptStream
  rx : EdptStream
deriving DecidableEq, Repr

/-- Which of the optional application callbacks are linked in (they are weak
symbols in the source; `true` means the symbol is defined). -/
structure Callbacks where
  mount : Bool
  umount : Bool
  rx : Bool
  txComplete : Bool
deriving DecidableEq, Repr

/-- Observable events: control transfers handed to `tuh_control_xfer`,
invocations of stored callbacks, application callbacks, stream calls made by
`cdch_xfer_cb`, and the host-stack hand-back from `set_config_complete`. -/
inductive Ev where
  | controlXfer (daddr : Nat) (setup : ControlSetup) (buffer : List Nat)
      (cb : CompleteFn) (user_data : Nat)
  | callCb (cb : CompleteFn) (xfer : Xfer)
  | mountCb (idx : Nat)
  | umountCb (idx : Nat)
  | rxCb (idx : Nat)
  | txCompleteCb (idx : Nat)
  | writeXfer (n : Nat)
  | zlpCheck (bytes : Nat)
  | readXferComplete (bytes : Nat)
  | ftdiStatusDrop
  | readXferArm
  | driverCfgDone (daddr : Nat) (itf_num : Nat)
deriving DecidableEq, Repr

/-! ## Stream-pair operations (modelled from the spec's stream contract) -/

/-- Modelled from the spec: `tu_edpt_stream_write` copies into the TX ring,
never blocks, and returns the number of bytes queued. -/
def tu_edpt_stream_write (s : EdptStream) (buf : List Nat) : Nat × EdptStream :=
  let n := min buf.length (s.ffSize - s.ff.length)
  (n, { s with ff := s.ff ++ buf.take n })

/-- Modelled from the spec: `tu_edpt_stream_write_xfer` submits up to one
endpoint-packet worth when no transfer is in flight and the ring is nonempty;
returns the number of bytes submitted (0 if nothing to send). -/
def tu_edpt_stream_write_xfer (s : EdptStream) : Nat × EdptStream :=
  if s.xferring ∨ s.ff = [] then (0, s)
  else
    let n := min s.ff.length s.epSize
    (n, { s with ff := s.ff.drop n, epBuf := s.ff.take n, xferring := true })

/-- Modelled from the spec: `tu_edpt_stream_write_zlp_if_needed` submits a
zero-length packet when the previous completion moved a nonzero multiple of
the endpoint packet size and the ring is empty. -/
def tu_edpt_stream_write_zlp_if_needed (s : EdptStream) (lastBytes : Nat) : EdptStream :=
  if lastBytes ≠ 0 ∧ lastBytes % s.epSize = 0 ∧ s.ff = [] then
    { s with xferring := true }
  else s

/-- Modelled from the spec: `tu_edpt_stream_read` drains up to `k` bytes from
the RX ring and returns them. -/
def tu_edpt_stream_read (s : EdptStream) (k : Nat) : List Nat × EdptStream :=
  (s.ff.take k, { s with ff := s.ff.drop k })

/-- Modelled from the spec: `tu_edpt_stream_read_xfer` posts a receive when no
transfer is in flight. -/
def tu_edpt_stream_read_xfer (s : EdptStream) : EdptStream :=
  if s.xferring then s else { s with xferring := true }

/-- Modelled from the spec: `tu_edpt_stream_read_xfer_complete` ingests the
endpoint buffer into the RX ring. -/
def tu_edpt_stream_read_xfer_complete (s : EdptStream) (bytes : Nat) : EdptStream :=
  { s with ff := s.ff ++ s.epBuf.take bytes, xferring := false }

/-- Modelled from the spec: `tu_edpt_stream_peek`. -/
def tu_edpt_stream_peek (s : EdptStream) : Option Nat :=
  s.ff.head?

/-- Modelled from the spec: `tu_edpt_stream_read_available`. -/
def tu_edpt_stream_read_available (s : EdptStream) : Nat :=
  s.ff.length

/-- Modelled from the spec: `tu_edpt_stream_write_available`. -/
def tu_edpt_stream_write_available (s : EdptStream) : Nat :=
  s.ffSize - s.ff.length

/-- Modelled from the spec: `tu_edpt_stream_clear` empties the ring and
reports success. -/
def tu_edpt_stream_clear (s : EdptStream) : Bool × EdptStream :=
  (true, { s with ff := [] })

/-- Modelled from the spec: `tu_edpt_stream_open` binds the stream to an
endpoint address. -/
def tu_edpt_stream_open (s : EdptStream) (epa : Nat) : EdptStream :=
  { s with ep_addr := epa, xferring := false }

/-- Modelled from the spec: `tu_edpt_stream_close` (conventional: unbinds the
endpoint). -/
def tu_edpt_stream_close (s : EdptStream) : EdptStream :=
  { s with ep_addr := 0, xferring := false }

/-! ## Interface table -/

/-- `get_itf`: the slot at `idx` when `idx` is in range and the slot is
occupied (`daddr != 0`); `none` embeds both the failed bound assert and the
NULL return for a free slot. -/
def get_itf (tbl : List CdchItf) (idx : Nat) : Option CdchItf :=
  match tbl[idx]? with
  | some p => if p.daddr ≠ 0 then some p else none
  | none => none

/-- Scan helper for `tuh_cdc_itf_get_index`: index of the first slot matching
(`daddr`, `bInterfaceNumber`); `none` embeds `TUSB_INDEX_INVALID_8`. -/
def itf_scan (daddr itf_num : Nat) : List CdchItf → Option Nat
  | [] => none
  | p :: rest =>
    if p.daddr = daddr ∧ p.bInterfaceNumber = itf_num then some 0
    else (itf_scan daddr itf_num rest).map (fun i => i + 1)

/-- `tuh_cdc_itf_get_index`: linear scan by (device address, interface
number). -/
def tuh_cdc_itf_get_index (tbl : List CdchItf) (daddr itf_num : Nat) : Option Nat :=
  itf_scan daddr itf_num tbl

/-- Scan helper for `get_idx_by_ep_addr`. -/
def ep_scan (daddr ep_addr : Nat) : List CdchItf → Option Nat
  | [] => none
  | p :: rest =>
    if p.daddr = daddr ∧
       (ep_addr = p.ep_notif ∨ ep_addr = p.rx.ep_addr ∨ ep_addr = p.tx.ep_addr) then some 0
    else (ep_scan daddr ep_addr rest).map (fun i => i + 1)

/-- `get_idx_by_ep_addr`: linear scan matching the notification, RX, or TX
endpoint address. -/
def get_idx_by_ep_addr (tbl : List CdchItf) (daddr ep_addr : Nat) : Option Nat :=
  ep_scan daddr ep_addr tbl

/-- `make_new_itf`: stamp the identity fields of the first free slot
(`daddr == 0`), zero `line_state`, and return its index with the updated
table; `none` when the table is full. -/
def make_new_itf (daddr itfNum sub prot : Nat) : List CdchItf → Option (Nat × List CdchItf)
  | [] => none
  | s :: rest =>
    if s.daddr = 0 then
      some (0, { s with
                  daddr := daddr
                  bInterfaceNumber := itfNum
                  bInterfaceSubClass := sub
                  bInterfaceProtocol := prot
                  line_state := 0 } :: rest)
    else (make_new_itf daddr itfNum sub prot rest).map (fun r => (r.1 + 1, s :: r.2))

/-- Index the allocator would pick: the first slot with `daddr == 0`. -/
def firstFree : List CdchItf → Option Nat
  | [] => none
  | s :: rest => if s.daddr = 0 then some 0 else (firstFree rest).map (fun i => i + 1)

/-- Update slot `i` in place (C writes through the slot pointer). -/
def modifySlot (tbl : List CdchItf) (i : Nat) (f : CdchItf → CdchItf) : List CdchItf :=
  match tbl[i]? with
  | some s => tbl.set i (f s)
  | none => tbl

/-- `support_line_request`: ACM with the `support_line_request` capability bit
(bit 1 of `bmCapabilities`), or FTDI. -/
def support_line_request (p : CdchItf) : Bool :=
  match p.serial_protocol with
  | SerialProtocol.acm => p.acm_capability.testBit 1
  | SerialProtocol.ftdi => true
  | SerialProtocol.cp210x => false

/-- `memcpy(&dst, src, len)` on byte lists, for `len ≤ src.length`. -/
def memcpyList (dst src : List Nat) (len : Nat) : List Nat :=
  src.take len ++ dst.drop len

/-! ## Control-request dispatcher -/

/-- `cdch_internal_control_complete`: look the interface up by the
`wIndex`-carried interface number, update the cached state on success
according to `(serial_protocol, bRequest)`, then forward the transfer to the
stashed user callback.  A failed lookup is the `TU_ASSERT(p_cdc, )` early
return. -/
def cdch_internal_control_complete (tbl : List CdchItf) (xfer : Xfer) :
    List CdchItf × List Ev :=
  let itf_num := xfer.setup.wIndex % 256
  match tuh_cdc_itf_get_index tbl xfer.daddr itf_num with
  | none => (tbl, [])
  | some idx =>
    match get_itf tbl idx with
    | none => (tbl, [])
    | some p =>
      let p1 :=
        if xfer.result = XferResult.success then
          match p.serial_protocol with
          | SerialProtocol.acm =>
            if xfer.setup.bRequest = 0x22 then
              { p with line_state := xfer.setup.wValue % 256 }
            else if xfer.setup.bRequest = 0x20 then
              { p with line_coding :=
                  memcpyList p.line_coding xfer.buffer (min 7 (xfer.setup.wLength % 65536)) }
            else p
          | SerialProtocol.ftdi =>
            if xfer.setup.bRequest = 1 then
              { p with line_state := xfer.setup.wValue % 256 }
            else p
          | SerialProtocol.cp210x => p
        else p
      (tbl.set idx p1,
       [Ev.callCb p.user_control_cb { xfer with complete_cb := p.user_control_cb }])

/-- `acm_set_control_line_state`: class request 0x22 on the interface, with
the trampoline as completion callback; the user callback is stashed first. -/
def acm_set_control_line_state (tbl : List CdchItf) (idx : Nat) (p : CdchItf)
    (line_state : Nat) (cb : CompleteFn) (ud : Nat) :
    List CdchItf × List Ev × Bool :=
  let setup : ControlSetup :=
    { bmRequestType := 0x21, bRequest := 0x22, wValue := line_state % 65536,
      wIndex := p.bInterfaceNumber % 65536, wLength := 0 }
  (tbl.set idx { p with user_control_cb := cb },
   [Ev.controlXfer p.daddr setup [] CompleteFn.trampoline ud], true)

/-- `acm_set_line_coding`: class request 0x20 carrying the 7-byte line coding,
copied into the host enumeration buffer. -/
def acm_set_line_coding (tbl : List CdchItf) (idx : Nat) (p : CdchItf)
    (coding : List Nat) (cb : CompleteFn) (ud : Nat) :
    List CdchItf × List Ev × Bool :=
  let setup : ControlSetup :=
    { bmRequestType := 0x21, bRequest := 0x20, wValue := 0,
      wIndex := p.bInterfaceNumber % 65536, wLength := 7 }
  (tbl.set idx { p with user_control_cb := cb },
   [Ev.controlXfer p.daddr setup (coding.take 7) CompleteFn.trampoline ud], true)

/-- `ftdi_sio_set_modem_ctrl`: vendor request `MODEM_CTRL` (1) with
`wValue = 0x0300 | line_state`, device recipient (`wIndex = 0`). -/
def ftdi_sio_set_modem_ctrl (tbl : List CdchItf) (idx : Nat) (p : CdchItf)
    (line_state : Nat) (cb : CompleteFn) (ud : Nat) :
    List CdchItf × List Ev × Bool :=
  let setup : ControlSetup :=
    { bmRequestType := 0x40, bRequest := 1,
      wValue := (0x300 ||| (line_state % 65536)) % 65536, wIndex := 0, wLength := 0 }
  (tbl.set idx { p with user_control_cb := cb },
   [Ev.controlXfer p.daddr setup [] CompleteFn.trampoline ud], true)

/-- `ftdi_sio_set_baudrate`: vendor request `SET_BAUD_RATE` (3) with the
divisor hardcoded to `0x4138` (9600 baud) in the source. -/
def ftdi_sio_set_baudrate (tbl : List CdchItf) (idx : Nat) (p : CdchItf)
    (cb : CompleteFn) (ud : Nat) : List CdchItf × List Ev × Bool :=
  let setup : ControlSetup :=
    { bmRequestType := 0x40, bRequest := 3, wValue := 0x4138, wIndex := 0, wLength := 0 }
  (tbl.set idx { p with user_control_cb := cb },
   [Ev.controlXfer p.daddr setup [] CompleteFn.trampoline ud], true)

/-- `tuh_cdc_set_control_line_state`: verify the slot and line-request
support, then dispatch to the per-protocol request. -/
def tuh_cdc_set_control_line_state (tbl : List CdchItf) (idx : Nat)
    (line_state : Nat) (cb : CompleteFn) (ud : Nat) :
    List CdchItf × List Ev × Bool :=
  match get_itf tbl idx with
  | none => (tbl, [], false)
  | some p =>
    if support_line_request p then
      match p.serial_protocol with
      | SerialProtocol.acm => acm_set_control_line_state tbl idx p line_state cb ud
      | SerialProtocol.ftdi => ftdi_sio_set_modem_ctrl tbl idx p line_state cb ud
      | SerialProtocol.cp210x => (tbl, [], false)
    else (tbl, [], false)

/-- `tuh_cdc_set_line_coding`: verify the slot and line-request support, then
dispatch (FTDI only sets the baud rate; the source TODO leaves data format
unset). -/
def tuh_cdc_set_line_coding (tbl : List CdchItf) (idx : Nat)
    (coding : List Nat) (cb : CompleteFn) (ud : Nat) :
    List CdchItf × List Ev × Bool :=
  match get_itf tbl idx with
  | none => (tbl, [], false)
  | some p =>
    if support_line_request p then
      match p.serial_protocol with
      | SerialProtocol.acm => acm_set_line_coding tbl idx p coding cb ud
      | SerialProtocol.ftdi => ftdi_sio_set_baudrate tbl idx p cb ud
      | SerialProtocol.cp210x => (tbl, [], false)
    else (tbl, [], false)

/-! ## Protocol openers

The descriptor block is the raw byte range starting at the interface
descriptor; `max_len` bounds it.  `tu_desc_next` advances by the `bLength`
byte, `tu_desc_type` reads the second byte.  Out-of-range reads return 0
(such reads are undefined behaviour in C; concrete inputs below stay in
range).  `tuh_edpt_open` is a host-stack collaborator and is taken to
succeed. -/

/-- Byte `i` of the descriptor block. -/
def dByte (bs : List Nat) (i : Nat) : Nat := bs.getD i 0

/-- `tu_desc_next`: advance by the descriptor's `bLength`. -/
def descNext (bs : List Nat) (off : Nat) : Nat := off + dByte bs off

/-- `tu_desc_type`: the `bDescriptorType` byte. -/
def descType (bs : List Nat) (off : Nat) : Nat := dByte bs (off + 1)

/-- One iteration of `open_ep_stream_pair`: check endpoint-descriptor type and
bulk transfer type, open the endpoint, and bind it to the RX stream when the
address has the IN direction bit, otherwise to the TX stream.  `none` embeds
the `TU_ASSERT` failure. -/
def open_one_ep (tbl : List CdchItf) (i : Nat) (bs : List Nat) (off : Nat) :
    Option (List CdchItf) :=
  if descType bs off = 5 ∧ dByte bs (off + 3) % 4 = 2 then
    let epa := dByte bs (off + 2)
    some (modifySlot tbl i (fun p =>
      if epa.testBit 7 then { p with rx := tu_edpt_stream_open p.rx epa }
      else { p with tx := tu_edpt_stream_open p.tx epa }))
  else none

/-- `open_ep_stream_pair`: two consecutive endpoint descriptors; a failed
check aborts, keeping whatever was already opened. -/
def open_ep_stream_pair (tbl : List CdchItf) (i : Nat) (bs : List Nat) (off : Nat) :
    List CdchItf × Bool :=
  match open_one_ep tbl i bs off with
  | none => (tbl, false)
  | some t1 =>
    match open_one_ep t1 i bs (descNext bs off) with
    | none => (t1, false)
    | some t2 => (t2, true)

/-- `ftdi_open`: vendor interface with `sub_class = protocol = 0xff` and two
endpoints; allocates a slot, marks it FTDI, opens the bulk pair. -/
def ftdi_open (tbl : List CdchItf) (daddr : Nat) (bs : List Nat) (max_len : Nat) :
    List CdchItf × Bool :=
  if dByte bs 6 = 0xff ∧ dByte bs 7 = 0xff ∧ dByte bs 4 = 2 then
    if 9 + 2 * 7 ≤ max_len then
      match make_new_itf daddr (dByte bs 2) (dByte bs 6) (dByte bs 7) tbl with
      | none => (tbl, false)
      | some r =>
        let t2 := modifySlot r.2 r.1
          (fun p => { p with serial_protocol := SerialProtocol.ftdi })
        open_ep_stream_pair t2 r.1 bs (descNext bs 0)
    else (tbl, false)
  else (tbl, false)

/-- `cp210x_open`: vendor interface with `sub_class = protocol = 0` and two
endpoints; allocates a slot, marks it CP210x, opens the bulk pair. -/
def cp210x_open (tbl : List CdchItf) (daddr : Nat) (bs : List Nat) (max_len : Nat) :
    List CdchItf × Bool :=
  if dByte bs 6 = 0 ∧ dByte bs 7 = 0 ∧ dByte bs 4 = 2 then
    if 9 + 2 * 7 ≤ max_len then
      match make_new_itf daddr (dByte bs 2) (dByte bs 6) (dByte bs 7) tbl with
      | none => (tbl, false)
      | some r =>
        let t2 := modifySlot r.2 r.1
          (fun p => { p with serial_protocol := SerialProtocol.cp210x })
        open_ep_stream_pair t2 r.1 bs (descNext bs 0)
    else (tbl, false)
  else (tbl, false)

/-- The CDC functional-descriptor walk of `acm_open`: while within `max_len`
and looking at a class-specific interface descriptor (type 0x24), remember
the last ACM functional descriptor's `bmCapabilities` (subtype 2, byte 3).
The fuel is `max_len`; the C loop would not terminate on a descriptor with
`bLength = 0`, which the fuel cuts off. -/
def acm_walk (bs : List Nat) (max_len : Nat) : Nat → Nat → Option Nat → Option Nat × Nat
  | 0, off, cap => (cap, off)
  | fuel + 1, off, cap =>
    if off < max_len ∧ descType bs off = 0x24 then
      let cap1 := if dByte bs (off + 2) = 2 then some (dByte bs (off + 3)) else cap
      acm_walk bs max_len fuel (descNext bs off) cap1
    else (cap, off)

/-- Data-interface tail of `acm_open`: when a CDC-data interface descriptor
(class 0x0A) follows, open its two bulk endpoints as a pair; otherwise
succeed with the streams unopened. -/
def acm_open_data (tbl : List CdchItf) (i : Nat) (bs : List Nat) (off : Nat) :
    List CdchItf × Bool :=
  if descType bs off = 4 ∧ dByte bs (off + 5) = 0x0A then
    open_ep_stream_pair tbl i bs (descNext bs off)
  else (tbl, true)

/-- `acm_open`: allocate a slot, mark it ACM, walk the functional
descriptors, optionally open the notification endpoint
(`bNumEndpoints == 1`), then the data-interface endpoint pair. -/
def acm_open (tbl : List CdchItf) (daddr : Nat) (bs : List Nat) (max_len : Nat) :
    List CdchItf × Bool :=
  match make_new_itf daddr (dByte bs 2) (dByte bs 6) (dByte bs 7) tbl with
  | none => (tbl, false)
  | some r =>
    let t2 := modifySlot r.2 r.1 (fun p => { p with serial_protocol := SerialProtocol.acm })
    let walk := acm_walk bs max_len max_len (descNext bs 0) none
    let t3 := match walk.1 with
      | some c => modifySlot t2 r.1 (fun p => { p with acm_capability := c })
      | none => t2
    if dByte bs 4 = 1 then
      if descType bs walk.2 = 5 then
        let epa := dByte bs (walk.2 + 2)
        let t4 := modifySlot t3 r.1 (fun p => { p with ep_notif := epa })
        acm_open_data t4 r.1 bs (descNext bs walk.2)
      else (t3, false)
    else acm_open_data t3 r.1 bs walk.2

/-- `cdch_open`: dispatch by interface class — CDC/ACM goes to `acm_open`;
class 0xff queries (vid, pid) (`none` embeds a failed `tuh_vid_pid_get`) and
consults the FTDI and CP210x allow-lists; anything else is refused.  The
vendor ids and pid allow-lists are compile-time tables from headers outside
the source file, passed here as parameters. -/
def cdch_open (ftdiVid cp210xVid : Nat) (ftdiPids cp210xPids : List Nat)
    (vidpid : Option (Nat × Nat)) (tbl : List CdchItf) (daddr : Nat)
    (bs : List Nat) (max_len : Nat) : List CdchItf × Bool :=
  if dByte bs 5 = 2 ∧ dByte bs 6 = 2 then acm_open tbl daddr bs max_len
  else if dByte bs 5 = 0xff then
    match vidpid with
    | none => (tbl, false)
    | some vp =>
      if vp.1 = ftdiVid ∧ ftdiPids.contains vp.2 then ftdi_open tbl daddr bs max_len
      else if vp.1 = cp210xVid ∧ cp210xPids.contains vp.2 then cp210x_open tbl daddr bs max_len
      else (tbl, false)
  else (tbl, false)

/-! ## Enumeration (ACM state machine) and lifecycle -/

/-- `set_config_complete`: fire the application mount callback, post the
first RX transfer, and notify the host stack with
`usbh_driver_set_config_complete(daddr, itf_num)`. -/
def set_config_complete (cbs : Callbacks) (tbl : List CdchItf) (idx itf_num : Nat) :
    List CdchItf × List Ev :=
  match tbl[idx]? with
  | none => (tbl, [])
  | some p =>
    (tbl.set idx { p with rx := tu_edpt_stream_read_xfer p.rx },
     (if cbs.mount then [Ev.mountCb idx] else []) ++ [Ev.driverCfgDone p.daddr itf_num])

/-- Terminal ACM enumeration step: `set_config_complete` with
`itf_num + 1` (the data interface counts as a separate configuration step). -/
def acm_cfg_step_complete (cbs : Callbacks) (tbl : List CdchItf) (idx itf_num : Nat) :
    List CdchItf × List Ev :=
  set_config_complete cbs tbl idx (itf_num + 1)

/-- `CONFIG_ACM_SET_LINE_CODING` step: issue SET_LINE_CODING when the
line-coding-on-enum option is configured (`cfgCoding = some bytes`) and the
slot's `support_line_request` capability bit is set; fall through to the
terminal step otherwise.  The next state (2) rides in `user_data`. -/
def acm_cfg_step_coding (cfgCoding : Option (List Nat)) (cbs : Callbacks)
    (tbl : List CdchItf) (idx itf_num : Nat) (p : CdchItf) :
    List CdchItf × List Ev :=
  match cfgCoding with
  | some coding =>
    if p.acm_capability.testBit 1 then
      let r := tuh_cdc_set_line_coding tbl idx coding CompleteFn.acmConfig 2
      (r.1, r.2.1)
    else acm_cfg_step_complete cbs tbl idx itf_num
  | none => acm_cfg_step_complete cbs tbl idx itf_num

/-- `CONFIG_ACM_SET_CONTROL_LINE_STATE` step: issue SET_CONTROL_LINE_STATE
when the line-control-on-enum option is configured (`cfgControl = some v`,
standing for a defined, nonzero macro) and the capability bit is set; fall
through to the line-coding step otherwise.  The next state (1) rides in
`user_data`. -/
def acm_cfg_step_control (cfgControl : Option Nat) (cfgCoding : Option (List Nat))
    (cbs : Callbacks) (tbl : List CdchItf) (idx itf_num : Nat) (p : CdchItf) :
    List CdchItf × List Ev :=
  match cfgControl with
  | some v =>
    if p.acm_capability.testBit 1 then
      let r := tuh_cdc_set_control_line_state tbl idx v CompleteFn.acmConfig 1
      (r.1, r.2.1)
    else acm_cfg_step_coding cfgCoding cbs tbl idx itf_num p
  | none => acm_cfg_step_coding cfgCoding cbs tbl idx itf_num p

/-- `process_acm_config`: recover the interface from the transfer's `wIndex`,
then run the state selected by `user_data`
(0 = SET_CONTROL_LINE_STATE, 1 = SET_LINE_CODING, 2 = COMPLETE). -/
def process_acm_config (cfgControl : Option Nat) (cfgCoding : Option (List Nat))
    (cbs : Callbacks) (tbl : List CdchItf) (xfer : Xfer) :
    List CdchItf × List Ev :=
  let itf_num := xfer.setup.wIndex % 256
  match tuh_cdc_itf_get_index tbl xfer.daddr itf_num with
  | none => (tbl, [])
  | some idx =>
    match get_itf tbl idx with
    | none => (tbl, [])
    | some p =>
      match xfer.user_data with
      | 0 => acm_cfg_step_control cfgControl cfgCoding cbs tbl idx itf_num p
      | 1 => acm_cfg_step_coding cfgCoding cbs tbl idx itf_num p
      | 2 => acm_cfg_step_complete cbs tbl idx itf_num
      | _ => (tbl, [])

/-- `cdch_xfer_cb`: bulk/interrupt completion dispatch.  `none` embeds the
fatal `TU_ASSERT`s (non-success result, unknown endpoint, failed lookup).
TX completions fire the application callback, attempt a refill, and check the
ZLP rule exactly when the refill submitted nothing; RX completions ingest the
bytes, drop the 2-byte FTDI status header on FTDI interfaces, fire the
receive callback, and re-arm the endpoint; notification completions are a
no-op. -/
def cdch_xfer_cb (cbs : Callbacks) (tbl : List CdchItf) (daddr ep_addr : Nat)
    (event : XferResult) (bytes : Nat) : Option (List CdchItf × List Ev) :=
  if event = XferResult.success then
    match get_idx_by_ep_addr tbl daddr ep_addr with
    | none => none
    | some idx =>
      match get_itf tbl idx with
      | none => none
      | some p =>
        if ep_addr = p.tx.ep_addr then
          let evTx := if cbs.txComplete then [Ev.txCompleteCb idx] else []
          let w := tu_edpt_stream_write_xfer p.tx
          if w.1 = 0 then
            some (tbl.set idx { p with tx := tu_edpt_stream_write_zlp_if_needed w.2 bytes },
                  evTx ++ [Ev.writeXfer 0, Ev.zlpCheck bytes])
          else
            some (tbl.set idx { p with tx := w.2 }, evTx ++ [Ev.writeXfer w.1])
        else if ep_addr = p.rx.ep_addr then
          let rx1 := tu_edpt_stream_read_xfer_complete p.rx bytes
          let dropRes :=
            if p.serial_protocol = SerialProtocol.ftdi then
              ((tu_edpt_stream_read rx1 2).2, [Ev.ftdiStatusDrop])
            else (rx1, [])
          let evRx := if cbs.rx then [Ev.rxCb idx] else []
          some (tbl.set idx { p with rx := tu_edpt_stream_read_xfer dropRes.1 },
                [Ev.readXferComplete bytes] ++ dropRes.2 ++ evRx ++ [Ev.readXferArm])
        else if ep_addr = p.ep_notif then some (tbl, [])
        else none
  else none

/-- Per-slot action of `cdch_close`: a slot owned by `daddr` fires the
unmount callback, closes both streams, and zeroes `daddr` and
`bInterfaceNumber`; any other slot is untouched. -/
def cdch_close_slot (cbs : Callbacks) (daddr idx : Nat) (p : CdchItf) :
    CdchItf × List Ev :=
  if p.daddr = daddr then
    ({ p with daddr := 0, bInterfaceNumber := 0,
              tx := tu_edpt_stream_close p.tx, rx := tu_edpt_stream_close p.rx },
     if cbs.umount then [Ev.umountCb idx] else [])
  else (p, [])

/-- The `cdch_close` loop, carrying the running slot index. -/
def cdch_close_from (cbs : Callbacks) (daddr idx : Nat) :
    List CdchItf → List CdchItf × List Ev
  | [] => ([], [])
  | p :: rest =>
    let r1 := cdch_close_slot cbs daddr idx p
    let r2 := cdch_close_from cbs daddr (idx + 1) rest
    (r1.1 :: r2.1, r1.2 ++ r2.2)

/-- `cdch_close`: free every slot owned by `daddr`. -/
def cdch_close (cbs : Callbacks) (tbl : List CdchItf) (daddr : Nat) :
    List CdchItf × List Ev :=
  cdch_close_from cbs daddr 0 tbl

/-- A freshly initialised stream (`tu_edpt_stream_init` with the configured
buffer sizes). -/
def emptyStream (ffSize epSize : Nat) : EdptStream :=
  { ep_addr := 0, ff := [], ffSize := ffSize, epBuf := [], epSize := epSize,
    xferring := false }

/-- A zeroed slot as `cdch_init`'s `tu_memclr` leaves it (`serial_protocol`
zero is ACM; `user 0` is the NULL callback). -/
def initSlot (txFf txEp rxFf rxEp : Nat) : CdchItf :=
  { daddr := 0, bInterfaceNumber := 0, bInterfaceSubClass := 0,
    bInterfaceProtocol := 0, serial_protocol := SerialProtocol.acm,
    acm_capability := 0, ep_notif := 0, line_coding := List.replicate 7 0,
    line_state := 0, user_control_cb := CompleteFn.user 0,
    tx := emptyStream txFf txEp, rx := emptyStream rxFf rxEp }

/-- `cdch_init`: clear all `n` slots and initialise each stream pair. -/
def cdch_init (n txFf txEp rxFf rxEp : Nat) : List CdchItf :=
  List.replicate n (initSlot txFf txEp rxFf rxEp)

/-! ## Public application API -/

/-- `tuh_cdc_mounted`. -/
def tuh_cdc_mounted (tbl : List CdchItf) (idx : Nat) : Bool :=
  (get_itf tbl idx).isSome

/-- The record filled by `tuh_cdc_itf_get_info`: the device address and the
reconstructed interface descriptor. -/
structure ItfInfo where
  daddr : Nat
  bLength : Nat
  bDescriptorType : Nat
  bInterfaceNumber : Nat
  bAlternateSetting : Nat
  bNumEndpoints : Nat
  bInterfaceClass : Nat
  bInterfaceSubClass : Nat
  bInterfaceProtocol : Nat
  iInterface : Nat
deriving DecidableEq, Repr

/-- `tuh_cdc_itf_get_info`: reconstruct an interface descriptor from the slot
(`bLength = 9`, type 4 = interface, class fixed to the CDC code 2). -/
def tuh_cdc_itf_get_info (tbl : List CdchItf) (idx : Nat) : Option ItfInfo :=
  (get_itf tbl idx).map fun p =>
    { daddr := p.daddr, bLength := 9, bDescriptorType := 4,
      bInterfaceNumber := p.bInterfaceNumber, bAlternateSetting := 0,
      bNumEndpoints := 2 + (if p.ep_notif ≠ 0 then 1 else 0),
      bInterfaceClass := 2, bInterfaceSubClass := p.bInterfaceSubClass,
      bInterfaceProtocol := p.bInterfaceProtocol, iInterface := 0 }

/-- `tuh_cdc_get_dtr`: DTR is bit 0 of the cached `line_state`. -/
def tuh_cdc_get_dtr (tbl : List CdchItf) (idx : Nat) : Bool :=
  match get_itf tbl idx with
  | none => false
  | some p => p.line_state.testBit 0

/-- `tuh_cdc_get_rts`: RTS is bit 1 of the cached `line_state`. -/
def tuh_cdc_get_rts (tbl : List CdchItf) (idx : Nat) : Bool :=
  match get_itf tbl idx with
  | none => false
  | some p => p.line_state.testBit 1

/-- `tuh_cdc_get_local_line_coding`: the cached 7-byte line coding. -/
def tuh_cdc_get_local_line_coding (tbl : List CdchItf) (idx : Nat) : Option (List Nat) :=
  (get_itf tbl idx).map fun p => p.line_coding

/-- `tuh_cdc_write`. -/
def tuh_cdc_write (tbl : List CdchItf) (idx : Nat) (buf : List Nat) :
    Nat × List CdchItf :=
  match get_itf tbl idx with
  | none => (0, tbl)
  | some p =>
    let w := tu_edpt_stream_write p.tx buf
    (w.1, tbl.set idx { p with tx := w.2 })

/-- `tuh_cdc_write_flush`. -/
def tuh_cdc_write_flush (tbl : List CdchItf) (idx : Nat) : Nat × List CdchItf :=
  match get_itf tbl idx with
  | none => (0, tbl)
  | some p =>
    let w := tu_edpt_stream_write_xfer p.tx
    (w.1, tbl.set idx { p with tx := w.2 })

/-- `tuh_cdc_write_clear`. -/
def tuh_cdc_write_clear (tbl : List CdchItf) (idx : Nat) : Bool × List CdchItf :=
  match get_itf tbl idx with
  | none => (false, tbl)
  | some p =>
    let c := tu_edpt_stream_clear p.tx
    (c.1, tbl.set idx { p with tx := c.2 })

/-- `tuh_cdc_write_available`. -/
def tuh_cdc_write_available (tbl : List CdchItf) (idx : Nat) : Nat :=
  match get_itf tbl idx with
  | none => 0
  | some p => tu_edpt_stream_write_available p.tx

/-- `tuh_cdc_read`: returns the bytes drained from the RX ring. -/
def tuh_cdc_read (tbl : List CdchItf) (idx : Nat) (bufsize : Nat) :
    List Nat × List CdchItf :=
  match get_itf tbl idx with
  | none => ([], tbl)
  | some p =>
    let r := tu_edpt_stream_read p.rx bufsize
    (r.1, tbl.set idx { p with rx := r.2 })

/-- `tuh_cdc_read_available`. -/
def tuh_cdc_read_available (tbl : List CdchItf) (idx : Nat) : Nat :=
  match get_itf tbl idx with
  | none => 0
  | some p => tu_edpt_stream_read_available p.rx

/-- `tuh_cdc_peek`. -/
def tuh_cdc_peek (tbl : List CdchItf) (idx : Nat) : Option Nat :=
  match get_itf tbl idx with
  | none => none
  | some p => tu_edpt_stream_peek p.rx

/-- `tuh_cdc_read_clear`: clear the RX ring, then re-arm the endpoint. -/
def tuh_cdc_read_clear (tbl : List CdchItf) (idx : Nat) : Bool × List CdchItf :=
  match get_itf tbl idx with
  | none => (false, tbl)
  | some p =>
    let c := tu_edpt_stream_clear p.rx
    (c.1, tbl.set idx { p with rx := tu_edpt_stream_read_xfer c.2 })

/-! ## Shared helper lemmas -/

theorem memOfGetQ {α : Type} {l : List α} {i : Nat} {a : α} (h : l[i]? = some a) :
    a ∈ l := by
  obtain ⟨hlt, rfl⟩ := List.getElem?_eq_some.mp h
  exact List.getElem_mem hlt

theorem ltOfGetQ {α : Type} {l : List α} {i : Nat} {a : α} (h : l[i]? = some a) :
    i < l.length :=
  (List.getElem?_eq_some.mp h).1

theorem setSelfOfGetQ {α : Type} {l : List α} {i : Nat} {a : α}
    (h : l[i]? = some a) : l.set i a = l := by
  apply List.ext_getElem?
  intro j
  by_cases hj : i = j
  · subst hj
    rw [List.getElem?_set_eq_of_lt _ (ltOfGetQ h)]
    exact h.symm
  · rw [List.getElem?_set_ne hj]

theorem get_itf_eq_some {tbl : List CdchItf} {idx : Nat} {p : CdchItf} :
    get_itf tbl idx = some p ↔ tbl[idx]? = some p ∧ p.daddr ≠ 0 := by
  unfold get_itf
  cases h : tbl[idx]? with
  | none => simp
  | some q =>
    by_cases hq : q.daddr ≠ 0
    · simp only [if_pos hq]
      constructor
      · rintro ⟨rfl⟩; exact ⟨rfl, hq⟩
      · rintro ⟨⟨rfl⟩, _⟩; rfl
    · simp only [if_neg hq]
      push_neg at hq
      constructor
      · rintro ⟨⟩
      · rintro ⟨⟨rfl⟩, hcontra⟩; exact absurd hq hcontra

/-! ## Claim C1 -/

/-- Claim C1: for a control transfer completing with result SUCCESS that goes
through `cdch_internal_control_complete`, the cache of the looked-up slot is
updated exactly by `(serial_protocol, bRequest)` — ACM SET_CONTROL_LINE_STATE
(0x22) stores the low byte of `wValue` into `line_state`; ACM SET_LINE_CODING
(0x20) copies `min 7 wLength` buffer bytes into `line_coding`; FTDI
MODEM_CTRL (1) stores the low byte of `wValue` into `line_state`; CP210x and
every other pair leave the table untouched — and in every case the stashed
user callback is invoked with the transfer. -/
theorem C1_trampoline_success_updates_cache
    (tbl : List CdchItf) (xfer : Xfer) (idx : Nat) (p : CdchItf)
    (hidx : tuh_cdc_itf_get_index tbl xfer.daddr (xfer.setup.wIndex % 256) = some idx)
    (hp : get_itf tbl idx = some p)
    (hres : xfer.result = XferResult.success) :
    (cdch_internal_control_complete tbl xfer).2 =
      [Ev.callCb p.user_control_cb { xfer with complete_cb := p.user_control_cb }] ∧
    (p.serial_protocol = SerialProtocol.acm → xfer.setup.bRequest = 0x22 →
      (cdch_internal_control_complete tbl xfer).1 =
        tbl.set idx { p with line_state := xfer.setup.wValue % 256 }) ∧
    (p.serial_protocol = SerialProtocol.acm → xfer.setup.bRequest = 0x20 →
      (cdch_internal_control_complete tbl xfer).1 =
        tbl.set idx { p with
          line_coding :=
            memcpyList p.line_coding xfer.buffer (min 7 (xfer.setup.wLength % 65536)) }) ∧
    (p.serial_protocol = SerialProtocol.acm → xfer.setup.bRequest ≠ 0x22 →
      xfer.setup.bRequest ≠ 0x20 →
      (cdch_internal_control_complete tbl xfer).1 = tbl) ∧
    (p.serial_protocol = SerialProtocol.ftdi → xfer.setup.bRequest = 1 →
      (cdch_internal_control_complete tbl xfer).1 =
        tbl.set idx { p with line_state := xfer.setup.wValue % 256 }) ∧
    (p.serial_protocol = SerialProtocol.ftdi → xfer.setup.bRequest ≠ 1 →
      (cdch_internal_control_complete tbl xfer).1 = tbl) ∧
    (p.serial_protocol = SerialProtocol.cp210x →
      (cdch_internal_control_complete tbl xfer).1 = tbl) := by
  have hget := get_itf_eq_some.mp hp
  simp only [cdch_internal_control_complete, hidx, hp, hres, if_pos rfl]
  refine ⟨?_, ?_, ?_, ?_, ?_, ?_, ?_⟩
  · trivial
  · intro h1 h2
    rw [h1]
    simp [h2]
  · intro h1 h2
    rw [h1]
    simp [h2]
  · intro h1 h2 h3
    rw [h1]
    simp only [if_neg h2, if_neg h3]
    exact setSelfOfGetQ hget.1
  · intro h1 h2
    rw [h1]
    simp [h2]
  · intro h1 h2
    rw [h1]
    simp only [if_neg h2]
    exact setSelfOfGetQ hget.1
  · intro h1
    rw [h1]
    exact setSelfOfGetQ hget.1

/-- A mounted ACM slot used by concrete instances (capability bit 1 set). -/
def wSlotAcm : CdchItf :=
  { initSlot 16 8 16 8 with
    daddr := 1, serial_protocol := SerialProtocol.acm,
    acm_capability := 2, user_control_cb := CompleteFn.user 7 }

/-- A completed SET_CONTROL_LINE_STATE transfer (`wValue = 3`, success). -/
def wXferCls : Xfer :=
  { daddr := 1, ep_addr := 0, result := XferResult.success,
    setup := { bmRequestType := 0x21, bRequest := 0x22, wValue := 3,
               wIndex := 0, wLength := 0 },
    buffer := [], complete_cb := CompleteFn.trampoline, user_data := 0 }

/-- Witness for C1 at a concrete ACM SET_CONTROL_LINE_STATE completion. -/
theorem C1_trampoline_success_updates_cache_witness :
    wXferCls.result = XferResult.success ∧
    (cdch_internal_control_complete [wSlotAcm] wXferCls).1 =
      [wSlotAcm].set 0 { wSlotAcm with line_state := 3 % 256 } :=
  ⟨rfl,
   (C1_trampoline_success_updates_cache [wSlotAcm] wXferCls 0 wSlotAcm
      (by decide) (by decide) rfl).2.1 rfl rfl⟩

/-! ## Claim C2 -/

/-- Claim C2: for a control transfer completing with a non-success result
routed through `cdch_internal_control_complete`, the user callback is still
invoked with the failing transfer and the table — in particular the looked-up
slot's `line_state` and `line_coding` — is left completely unchanged. -/
theorem C2_trampoline_failure_keeps_cache
    (tbl : List CdchItf) (xfer : Xfer) (idx : Nat) (p : CdchItf)
    (hidx : tuh_cdc_itf_get_index tbl xfer.daddr (xfer.setup.wIndex % 256) = some idx)
    (hp : get_itf tbl idx = some p)
    (hres : xfer.result ≠ XferResult.success) :
    cdch_internal_control_complete tbl xfer =
      (tbl, [Ev.callCb p.user_control_cb { xfer with complete_cb := p.user_control_cb }]) := by
  have hget := get_itf_eq_some.mp hp
  simp only [cdch_internal_control_complete, hidx, hp, if_neg hres]
  rw [setSelfOfGetQ hget.1]

/-- A failed SET_CONTROL_LINE_STATE transfer. -/
def wXferClsFail : Xfer :=
  { wXferCls with result := XferResult.stalled }

/-- Witness for C2 at a concrete failed ACM transfer. -/
theorem C2_trampoline_failure_keeps_cache_witness :
    wXferClsFail.result ≠ XferResult.success ∧
    cdch_internal_control_complete [wSlotAcm] wXferClsFail =
      ([wSlotAcm],
       [Ev.callCb (CompleteFn.user 7) { wXferClsFail with complete_cb := CompleteFn.user 7 }]) :=
  ⟨by decide,
   C2_trampoline_failure_keeps_cache [wSlotAcm] wXferClsFail 0 wSlotAcm
     (by decide) (by decide) (by decide)⟩

/-! ## Claim C8 -/

/-- Claim C8: `set_line_coding` and `set_control_line_state` fail
synchronously — no control transfer, no callback, no state change — exactly
when the interface does not support line requests: always on CP210x, and on
ACM without the `support_line_request` capability bit; they proceed
(returning true) on ACM with the bit set and on every FTDI interface. -/
theorem C8_line_requests_gated_on_support
    (tbl : List CdchItf) (idx : Nat) (p : CdchItf)
    (hp : get_itf tbl idx = some p) :
    (p.serial_protocol = SerialProtocol.cp210x → support_line_request p = false) ∧
    (p.serial_protocol = SerialProtocol.acm → p.acm_capability.testBit 1 = false →
      support_line_request p = false) ∧
    (p.serial_protocol = SerialProtocol.ftdi → support_line_request p = true) ∧
    (p.serial_protocol = SerialProtocol.acm → p.acm_capability.testBit 1 = true →
      support_line_request p = true) ∧
    (support_line_request p = false →
      (∀ ls cb ud, tuh_cdc_set_control_line_state tbl idx ls cb ud = (tbl, [], false)) ∧
      (∀ coding cb ud, tuh_cdc_set_line_coding tbl idx coding cb ud = (tbl, [], false))) ∧
    (support_line_request p = true →
      (∀ ls cb ud, (tuh_cdc_set_control_line_state tbl idx ls cb ud).2.2 = true) ∧
      (∀ coding cb ud, (tuh_cdc_set_line_coding tbl idx coding cb ud).2.2 = true)) := by
  refine ⟨?_, ?_, ?_, ?_, ?_, ?_⟩
  · intro h; simp [support_line_request, h]
  · intro h hbit; simp [support_line_request, h, hbit]
  · intro h; simp [support_line_request, h]
  · intro h hbit; simp [support_line_request, h, hbit]
  · intro hno
    constructor
    · intro ls cb ud
      simp [tuh_cdc_set_control_line_state, hp, hno]
    · intro coding cb ud
      simp [tuh_cdc_set_line_coding, hp, hno]
  · intro hyes
    constructor
    · intro ls cb ud
      simp only [tuh_cdc_set_control_line_state, hp, hyes, if_true]
      cases hsp : p.serial_protocol with
      | acm => simp [acm_set_control_line_state]
      | ftdi => simp [ftdi_sio_set_modem_ctrl]
      | cp210x => rw [support_line_request, hsp] at hyes; cases hyes
    · intro coding cb ud
      simp only [tuh_cdc_set_line_coding, hp, hyes, if_true]
      cases hsp : p.serial_protocol with
      | acm => simp [acm_set_line_coding]
      | ftdi => simp [ftdi_sio_set_baudrate]
      | cp210x => rw [support_line_request, hsp] at hyes; cases hyes

/-- A mounted CP210x slot. -/
def wSlotCp : CdchItf :=
  { initSlot 16 8 16 8 with
    daddr := 3, serial_protocol := SerialProtocol.cp210x,
    bInterfaceSubClass := 0, bInterfaceProtocol := 0 }

/-- Witness for C8: a CP210x interface rejects set_control_line_state
synchronously. -/
theorem C8_line_requests_gated_on_support_witness :
    support_line_request wSlotCp = false ∧
    tuh_cdc_set_control_line_state [wSlotCp] 0 3 (CompleteFn.user 9) 0 =
      ([wSlotCp], [], false) :=
  ⟨by decide,
   ((C8_line_requests_gated_on_support [wSlotCp] 0 wSlotCp (by decide)).2.2.2.2.1
      (by decide)).1 3 (CompleteFn.user 9) 0⟩

/-! ## Claim C9 -/

/-- Claim C9: every public API called with an out-of-range or unmounted index
(`get_itf` yields none) fails synchronously with false/0/none, leaves the
table unchanged, and emits no events. -/
theorem C9_invalid_index_fails_sync
    (tbl : List CdchItf) (idx : Nat)
    (hnone : get_itf tbl idx = none) :
    tuh_cdc_mounted tbl idx = false ∧
    tuh_cdc_itf_get_info tbl idx = none ∧
    tuh_cdc_get_dtr tbl idx = false ∧
    tuh_cdc_get_rts tbl idx = false ∧
    tuh_cdc_get_local_line_coding tbl idx = none ∧
    (∀ buf, tuh_cdc_write tbl idx buf = (0, tbl)) ∧
    tuh_cdc_write_flush tbl idx = (0, tbl) ∧
    tuh_cdc_write_clear tbl idx = (false, tbl) ∧
    tuh_cdc_write_available tbl idx = 0 ∧
    (∀ k, tuh_cdc_read tbl idx k = ([], tbl)) ∧
    tuh_cdc_read_available tbl idx = 0 ∧
    tuh_cdc_peek tbl idx = none ∧
    tuh_cdc_read_clear tbl idx = (false, tbl) ∧
    (∀ ls cb ud, tuh_cdc_set_control_line_state tbl idx ls cb ud = (tbl, [], false)) ∧
    (∀ coding cb ud, tuh_cdc_set_line_coding tbl idx coding cb ud = (tbl, [], false)) := by
  refine ⟨?_, ?_, ?_, ?_, ?_, ?_, ?_, ?_, ?_, ?_, ?_, ?_, ?_, ?_, ?_⟩ <;>
    simp [tuh_cdc_mounted, tuh_cdc_itf_get_info, tuh_cdc_get_dtr, tuh_cdc_get_rts,
          tuh_cdc_get_local_line_coding, tuh_cdc_write, tuh_cdc_write_flush,
          tuh_cdc_write_clear, tuh_cdc_write_available, tuh_cdc_read,
          tuh_cdc_read_available, tuh_cdc_peek, tuh_cdc_read_clear,
          tuh_cdc_set_control_line_state, tuh_cdc_set_line_coding, hnone]

/-- Witness for C9 at an out-of-range index. -/
theorem C9_invalid_index_fails_sync_witness :
    get_itf [wSlotAcm] 5 = none ∧
    tuh_cdc_mounted [wSlotAcm] 5 = false ∧
    tuh_cdc_write [wSlotAcm] 5 [1, 2, 3] = (0, [wSlotAcm]) :=
  ⟨by decide,
   (C9_invalid_index_fails_sync [wSlotAcm] 5 (by decide)).1,
   (C9_invalid_index_fails_sync [wSlotAcm] 5 (by decide)).2.2.2.2.2.1 [1, 2, 3]⟩

/-! ## Claim C10 -/

/-- Claim C10: for every mounted index, `tuh_cdc_itf_get_info` succeeds and
fills the slot's device address plus a reconstructed interface descriptor:
`bInterfaceClass` is always the CDC class code 2 (even for FTDI/CP210x whose
real descriptor class was 0xff), `bNumEndpoints` is 2 plus 1 when a
notification endpoint is present, `bAlternateSetting` and `iInterface` are 0,
and interface number / subclass / protocol come from the stored fields. -/
theorem C10_get_info_reconstructs_descriptor
    (tbl : List CdchItf) (idx : Nat) (p : CdchItf)
    (hp : get_itf tbl idx = some p) :
    tuh_cdc_itf_get_info tbl idx =
      some { daddr := p.daddr, bLength := 9, bDescriptorType := 4,
             bInterfaceNumber := p.bInterfaceNumber, bAlternateSetting := 0,
             bNumEndpoints := 2 + (if p.ep_notif ≠ 0 then 1 else 0),
             bInterfaceClass := 2, bInterfaceSubClass := p.bInterfaceSubClass,
             bInterfaceProtocol := p.bInterfaceProtocol, iInterface := 0 } := by
  simp [tuh_cdc_itf_get_info, hp]

/-- A mounted FTDI slot whose descriptor class was vendor (0xff). -/
def wSlotFtdi : CdchItf :=
  { initSlot 16 8 16 8 with
    daddr := 2, serial_protocol := SerialProtocol.ftdi,
    bInterfaceSubClass := 0xff, bInterfaceProtocol := 0xff,
    user_control_cb := CompleteFn.user 5 }

/-- Witness for C10 on an FTDI slot: the reconstructed class byte is the CDC
code 2, not the real 0xff. -/
theorem C10_get_info_reconstructs_descriptor_witness :
    tuh_cdc_itf_get_info [wSlotFtdi] 0 =
      some { daddr := 2, bLength := 9, bDescriptorType := 4,
             bInterfaceNumber := 0, bAlternateSetting := 0,
             bNumEndpoints := 2 + (if (0 : Nat) ≠ 0 then 1 else 0),
             bInterfaceClass := 2, bInterfaceSubClass := 0xff,
             bInterfaceProtocol := 0xff, iInterface := 0 } :=
  C10_get_info_reconstructs_descriptor [wSlotFtdi] 0 wSlotFtdi (by decide)

/-! ## Claim C4 -/

/-- Claim C4: in the ACM enumeration machine, the SET_CONTROL_LINE_STATE and
SET_LINE_CODING steps issue their control transfer (tagged with the next
state in `user_data`) exactly when the respective compile-time option is
configured and the slot's `support_line_request` capability bit is set,
falling through to the next state otherwise; the terminal step calls
`set_config_complete` with `interface_number + 1`. -/
theorem C4_acm_config_machine
    (cfgControl : Option Nat) (cfgCoding : Option (List Nat)) (cbs : Callbacks)
    (tbl : List CdchItf) (xfer : Xfer) (idx : Nat) (p : CdchItf)
    (hidx : tuh_cdc_itf_get_index tbl xfer.daddr (xfer.setup.wIndex % 256) = some idx)
    (hp : get_itf tbl idx = some p)
    (hacm : p.serial_protocol = SerialProtocol.acm) :
    ((cfgControl = none ∨ p.acm_capability.testBit 1 = false) →
      process_acm_config cfgControl cfgCoding cbs tbl { xfer with user_data := 0 } =
      process_acm_config cfgControl cfgCoding cbs tbl { xfer with user_data := 1 }) ∧
    ((cfgCoding = none ∨ p.acm_capability.testBit 1 = false) →
      process_acm_config cfgControl cfgCoding cbs tbl { xfer with user_data := 1 } =
      process_acm_config cfgControl cfgCoding cbs tbl { xfer with user_data := 2 }) ∧
    (∀ v, cfgControl = some v → p.acm_capability.testBit 1 = true →
      process_acm_config cfgControl cfgCoding cbs tbl { xfer with user_data := 0 } =
        (tbl.set idx { p with user_control_cb := CompleteFn.acmConfig },
         [Ev.controlXfer p.daddr
            { bmRequestType := 0x21, bRequest := 0x22, wValue := v % 65536,
              wIndex := p.bInterfaceNumber % 65536, wLength := 0 }
            [] CompleteFn.trampoline 1])) ∧
    (∀ coding, cfgCoding = some coding → p.acm_capability.testBit 1 = true →
      process_acm_config cfgControl cfgCoding cbs tbl { xfer with user_data := 1 } =
        (tbl.set idx { p with user_control_cb := CompleteFn.acmConfig },
         [Ev.controlXfer p.daddr
            { bmRequestType := 0x21, bRequest := 0x20, wValue := 0,
              wIndex := p.bInterfaceNumber % 65536, wLength := 7 }
            (coding.take 7) CompleteFn.trampoline 2])) ∧
    (process_acm_config cfgControl cfgCoding cbs tbl { xfer with user_data := 2 } =
      set_config_complete cbs tbl idx (xfer.setup.wIndex % 256 + 1)) := by
  have hsup : support_line_request p = p.acm_capability.testBit 1 := by
    rw [support_line_request, hacm]
  refine ⟨?_, ?_, ?_, ?_, ?_⟩
  · rintro (hnone | hbit)
    · simp [process_acm_config, hidx, hp, acm_cfg_step_control, hnone]
    · cases hc : cfgControl with
      | none => simp [process_acm_config, hidx, hp, acm_cfg_step_control]
      | some v =>
        simp [process_acm_config, hidx, hp, acm_cfg_step_control, hbit]
  · rintro (hnone | hbit)
    · simp [process_acm_config, hidx, hp, acm_cfg_step_coding,
            acm_cfg_step_complete, hnone]
    · cases hc : cfgCoding with
      | none => simp [process_acm_config, hidx, hp, acm_cfg_step_coding]
      | some coding =>
        simp [process_acm_config, hidx, hp, acm_cfg_step_coding, hbit]
  · intro v hv hbit
    simp [process_acm_config, hidx, hp, acm_cfg_step_control, hv, hbit,
          tuh_cdc_set_control_line_state, hsup, hacm, acm_set_control_line_state]
  · intro coding hcod hbit
    simp [process_acm_config, hidx, hp, acm_cfg_step_coding, hcod, hbit,
          tuh_cdc_set_line_coding, hsup, hacm, acm_set_line_coding]
  · simp [process_acm_config, hidx, hp, acm_cfg_step_complete]

/-- A synthetic kick-off transfer as built by `cdch_set_config`. -/
def wXferCfg : Xfer :=
  { daddr := 1, ep_addr := 0, result := XferResult.success,
    setup := { bmRequestType := 0, bRequest := 0, wValue := 0, wIndex := 0,
               wLength := 0 },
    buffer := [], complete_cb := CompleteFn.acmConfig, user_data := 0 }

/-- Witness for C4: with both options enabled and the capability bit set, the
first ACM state issues SET_CONTROL_LINE_STATE tagged with the next state. -/
theorem C4_acm_config_machine_witness :
    process_acm_config (some 3) (some [0, 0xC2, 1, 0, 0, 0, 8])
      { mount := true, umount := true, rx := true, txComplete := true }
      [wSlotAcm] { wXferCfg with user_data := 0 } =
      ([wSlotAcm].set 0 { wSlotAcm with user_control_cb := CompleteFn.acmConfig },
       [Ev.controlXfer 1
          { bmRequestType := 0x21, bRequest := 0x22, wValue := 3 % 65536,
            wIndex := 0 % 65536, wLength := 0 }
          [] CompleteFn.trampoline 1]) :=
  (C4_acm_config_machine (some 3) (some [0, 0xC2, 1, 0, 0, 0, 8])
      { mount := true, umount := true, rx := true, txComplete := true }
      [wSlotAcm] wXferCfg 0 wSlotAcm (by decide) (by decide) (by decide)).2.2.1
    3 rfl (by decide)

/-! ## Claim C5 -/

/-- Claim C5: on a successful bulk completion for an owned endpoint, the TX
branch fires the application tx_complete callback, attempts a ring refill
with `write_xfer`, and invokes `write_zlp_if_needed bytes` exactly when the
refill submitted zero bytes; the RX branch ingests the bytes with
`read_xfer_complete`, drops the first two ring bytes only on FTDI, fires the
application rx callback, and re-arms the endpoint with `read_xfer`. -/
theorem C5_xfer_cb_tx_rx_dispatch
    (cbs : Callbacks) (tbl : List CdchItf) (daddr ep_addr bytes : Nat)
    (idx : Nat) (p : CdchItf)
    (hidx : get_idx_by_ep_addr tbl daddr ep_addr = some idx)
    (hp : get_itf tbl idx = some p) :
    (ep_addr = p.tx.ep_addr →
      cdch_xfer_cb cbs tbl daddr ep_addr XferResult.success bytes =
        some (tbl.set idx
                { p with tx :=
                    if (tu_edpt_stream_write_xfer p.tx).1 = 0 then tu_edpt_stream_write_zlp_if_needed (tu_edpt_stream_write_xfer p.tx).2 bytes
                    else (tu_edpt_stream_write_xfer p.tx).2 },
              (if cbs.txComplete then [Ev.txCompleteCb idx] else []) ++
              [Ev.writeXfer (tu_edpt_stream_write_xfer p.tx).1] ++
              (if (tu_edpt_stream_write_xfer p.tx).1 = 0 then [Ev.zlpCheck bytes]
               else []))) ∧
    (ep_addr ≠ p.tx.ep_addr → ep_addr = p.rx.ep_addr →
      cdch_xfer_cb cbs tbl daddr ep_addr XferResult.success bytes =
        some (tbl.set idx
                { p with rx :=
                    tu_edpt_stream_read_xfer (if p.serial_protocol = SerialProtocol.ftdi then (tu_edpt_stream_read (tu_edpt_stream_read_xfer_complete p.rx bytes) 2).2 else tu_edpt_stream_read_xfer_complete p.rx bytes) },
              [Ev.readXferComplete bytes] ++
              (if p.serial_protocol = SerialProtocol.ftdi then [Ev.ftdiStatusDrop]
               else []) ++
              (if cbs.rx then [Ev.rxCb idx] else []) ++ [Ev.readXferArm])) := by
  constructor
  · intro htx
    subst htx
    by_cases hn : (tu_edpt_stream_write_xfer p.tx).1 = 0
    · simp [cdch_xfer_cb, hidx, hp, hn]
    · simp [cdch_xfer_cb, hidx, hp, hn]
  · intro hne hrx
    subst hrx
    by_cases hf : p.serial_protocol = SerialProtocol.ftdi
    · simp [cdch_xfer_cb, hidx, hp, hne, hf]
    · simp [cdch_xfer_cb, hidx, hp, hne, hf]

/-- All application callbacks registered. -/
def cbAll : Callbacks :=
  { mount := true, umount := true, rx := true, txComplete := true }

/-- TX stream bound to endpoint 0x02. -/
def wStreamTx : EdptStream :=
  { ep_addr := 2, ff := [], ffSize := 16, epBuf := [], epSize := 8,
    xferring := false }

/-- RX stream bound to endpoint 0x81 with 4 received bytes in the endpoint
buffer. -/
def wStreamRx : EdptStream :=
  { ep_addr := 129, ff := [], ffSize := 16, epBuf := [5, 6, 7, 8], epSize := 8,
    xferring := true }

/-- The FTDI slot with its endpoint pair bound. -/
def wSlotFtdiEp : CdchItf :=
  { wSlotFtdi with tx := wStreamTx, rx := wStreamRx }

/-- Witness for C5: an RX completion on an FTDI interface ingests 4 bytes,
drops the 2-byte status header, fires the rx callback, and re-arms. -/
theorem C5_xfer_cb_tx_rx_dispatch_witness :
    cdch_xfer_cb cbAll [wSlotFtdiEp] 2 129 XferResult.success 4 =
      some ([{ wSlotFtdiEp with
               rx := { ep_addr := 129, ff := [7, 8], ffSize := 16,
                       epBuf := [5, 6, 7, 8], epSize := 8, xferring := true } }],
            [Ev.readXferComplete 4, Ev.ftdiStatusDrop, Ev.rxCb 0, Ev.readXferArm]) :=
  (C5_xfer_cb_tx_rx_dispatch cbAll [wSlotFtdiEp] 2 129 4 0 wSlotFtdiEp
      (by decide) (by decide)).2 (by decide) (by decide)

/-! ## Claim C6 -/

/-- The state part of closing one owned slot. -/
def closeClean (p : CdchItf) : CdchItf :=
  { p with daddr := 0, bInterfaceNumber := 0,
           tx := tu_edpt_stream_close p.tx, rx := tu_edpt_stream_close p.rx }

theorem close_slot_fst (cbs : Callbacks) (d idx : Nat) (p : CdchItf) :
    (cdch_close_slot cbs d idx p).1 = if p.daddr = d then closeClean p else p := by
  rw [cdch_close_slot, closeClean]
  by_cases h : p.daddr = d <;> simp [h]

theorem close_slot_snd (cbs : Callbacks) (d idx : Nat) (p : CdchItf) :
    (cdch_close_slot cbs d idx p).2 =
      if p.daddr = d ∧ cbs.umount = true then [Ev.umountCb idx] else [] := by
  rw [cdch_close_slot]
  by_cases h : p.daddr = d
  · by_cases hu : cbs.umount = true <;> simp [h, hu]
  · simp [h]

theorem close_from_getQ (cbs : Callbacks) (d : Nat) :
    ∀ (tbl : List CdchItf) (k i : Nat),
      (cdch_close_from cbs d k tbl).1[i]? =
        (tbl[i]?).map (fun s => if s.daddr = d then closeClean s else s)
  | [], _, _ => by simp [cdch_close_from]
  | p :: rest, k, 0 => by
    simp [cdch_close_from, close_slot_fst]
  | p :: rest, k, i + 1 => by
    simp only [cdch_close_from, List.getElem?_cons_succ]
    exact close_from_getQ cbs d rest (k + 1) i

theorem close_from_umount_mem (cbs : Callbacks) (d : Nat) :
    ∀ (tbl : List CdchItf) (k j : Nat),
      Ev.umountCb j ∈ (cdch_close_from cbs d k tbl).2 ↔
        (cbs.umount = true ∧ ∃ i s, tbl[i]? = some s ∧ s.daddr = d ∧ k + i = j)
  | [], k, j => by simp [cdch_close_from]
  | p :: rest, k, j => by
    have ih := close_from_umount_mem cbs d rest (k + 1) j
    simp only [cdch_close_from, List.mem_append]
    constructor
    · rintro (h1 | h2)
      · rw [close_slot_snd] at h1
        by_cases hc : p.daddr = d ∧ cbs.umount = true
        · rw [if_pos hc] at h1
          simp only [List.mem_singleton] at h1
          rcases h1 with ⟨rfl⟩
          exact ⟨hc.2, 0, p, by simp, hc.1, by omega⟩
        · rw [if_neg hc] at h1
          simp at h1
      · obtain ⟨hu, i, s, hs, hsd, hk⟩ := ih.mp h2
        refine ⟨hu, i + 1, s, by simpa using hs, hsd, by omega⟩
    · rintro ⟨hu, i, s, hs, hsd, hk⟩
      cases i with
      | zero =>
        simp only [List.getElem?_cons_zero, Option.some_inj] at hs
        subst hs
        left
        rw [close_slot_snd, if_pos ⟨hsd, hu⟩]
        simp only [Nat.add_zero] at hk
        subst hk
        simp
      | succ n =>
        right
        exact ih.mpr ⟨hu, n, s, by simpa using hs, hsd, by omega⟩

theorem close_from_len (cbs : Callbacks) (d : Nat) :
    ∀ (tbl : List CdchItf) (k : Nat),
      (cdch_close_from cbs d k tbl).1.length = tbl.length
  | [], _ => rfl
  | p :: rest, k => by
    simp [cdch_close_from, close_from_len cbs d rest (k + 1)]

/-- Claim C6: `cdch_close` frees exactly the slots owned by `daddr`: each such
slot keeps every field except that `daddr` and `bInterfaceNumber` are zeroed
and both streams are closed, and it is unmounted afterwards; slots owned by
other addresses are untouched; the unmount callback fires (when registered)
precisely for the freed slot indices. -/
theorem C6_close_frees_owned_slots (cbs : Callbacks) (tbl : List CdchItf) (d : Nat) :
    (cdch_close cbs tbl d).1.length = tbl.length ∧
    (∀ (i : Nat) (s : CdchItf), tbl[i]? = some s → s.daddr = d →
      (∃ s2, (cdch_close cbs tbl d).1[i]? = some s2 ∧
        s2.daddr = 0 ∧ s2.bInterfaceNumber = 0 ∧
        s2.bInterfaceSubClass = s.bInterfaceSubClass ∧
        s2.bInterfaceProtocol = s.bInterfaceProtocol ∧
        s2.serial_protocol = s.serial_protocol ∧
        s2.acm_capability = s.acm_capability ∧
        s2.ep_notif = s.ep_notif ∧
        s2.line_coding = s.line_coding ∧
        s2.line_state = s.line_state ∧
        s2.user_control_cb = s.user_control_cb ∧
        s2.tx = tu_edpt_stream_close s.tx ∧
        s2.rx = tu_edpt_stream_close s.rx) ∧
      tuh_cdc_mounted (cdch_close cbs tbl d).1 i = false) ∧
    (∀ (i : Nat) (s : CdchItf), tbl[i]? = some s → s.daddr ≠ d →
      (cdch_close cbs tbl d).1[i]? = some s) ∧
    (∀ i, Ev.umountCb i ∈ (cdch_close cbs tbl d).2 ↔
      (cbs.umount = true ∧ ∃ s, tbl[i]? = some s ∧ s.daddr = d)) := by
  refine ⟨close_from_len cbs d tbl 0, ?_, ?_, ?_⟩
  · intro i s hs hsd
    have hq := close_from_getQ cbs d tbl 0 i
    rw [hs] at hq
    simp only [Option.map_some', if_pos hsd] at hq
    refine ⟨⟨closeClean s, hq, rfl, rfl, rfl, rfl, rfl, rfl, rfl, rfl, rfl, rfl,
            rfl, rfl⟩, ?_⟩
    rw [tuh_cdc_mounted, get_itf, cdch_close, hq]
    simp [closeClean]
  · intro i s hs hsd
    have hq := close_from_getQ cbs d tbl 0 i
    rw [hs] at hq
    simpa [if_neg hsd] using hq
  · intro i
    rw [cdch_close, close_from_umount_mem cbs d tbl 0 i]
    constructor
    · rintro ⟨hu, j, s, hs, hsd, hj⟩
      simp only [Nat.zero_add] at hj
      subst hj
      exact ⟨hu, s, hs, hsd⟩
    · rintro ⟨hu, s, hs, hsd⟩
      exact ⟨hu, i, s, hs, hsd, by omega⟩

/-- Witness for C6: closing address 1 unmounts slot 0, leaves the slot owned
by address 2 untouched, and fires the unmount callback for slot 0. -/
theorem C6_close_frees_owned_slots_witness :
    tuh_cdc_mounted (cdch_close cbAll [wSlotAcm, wSlotFtdiEp] 1).1 0 = false ∧
    (cdch_close cbAll [wSlotAcm, wSlotFtdiEp] 1).1[1]? = some wSlotFtdiEp ∧
    (Ev.umountCb 0 ∈ (cdch_close cbAll [wSlotAcm, wSlotFtdiEp] 1).2 ↔
      (cbAll.umount = true ∧
       ∃ s, [wSlotAcm, wSlotFtdiEp][(0 : Nat)]? = some s ∧ s.daddr = 1)) :=
  ⟨((C6_close_frees_owned_slots cbAll [wSlotAcm, wSlotFtdiEp] 1).2.1 0 wSlotAcm
      (by decide) (by decide)).2,
   (C6_close_frees_owned_slots cbAll [wSlotAcm, wSlotFtdiEp] 1).2.2.1 1 wSlotFtdiEp
      (by decide) (by decide),
   (C6_close_frees_owned_slots cbAll [wSlotAcm, wSlotFtdiEp] 1).2.2.2 0⟩

/-! ## Claim C3 -/

theorem modifySlot_frame (t : List CdchItf) (i : Nat) (f : CdchItf → CdchItf)
    (j : Nat) (hj : j ≠ i) : (modifySlot t i f)[j]? = t[j]? := by
  rw [modifySlot]
  cases t[i]? with
  | none => rfl
  | some s => exact List.getElem?_set_ne (fun h => hj h.symm)

theorem open_one_ep_frame {t t2 : List CdchItf} {i : Nat} {bs : List Nat}
    {off : Nat} (h : open_one_ep t i bs off = some t2) (j : Nat) (hj : j ≠ i) :
    t2[j]? = t[j]? := by
  rw [open_one_ep] at h
  by_cases hc : descType bs off = 5 ∧ dByte bs (off + 3) % 4 = 2
  · rw [if_pos hc, Option.some_inj] at h
    subst h
    exact modifySlot_frame t i _ j hj
  · rw [if_neg hc] at h
    cases h

theorem open_ep_stream_pair_frame (t : List CdchItf) (i : Nat) (bs : List Nat)
    (off : Nat) (j : Nat) (hj : j ≠ i) :
    (open_ep_stream_pair t i bs off).1[j]? = t[j]? := by
  rw [open_ep_stream_pair]
  cases h1 : open_one_ep t i bs off with
  | none => rfl
  | some t1 =>
    dsimp only
    cases h2 : open_one_ep t1 i bs (descNext bs off) with
    | none =>
      dsimp only
      exact open_one_ep_frame h1 j hj
    | some t2 =>
      dsimp only
      rw [open_one_ep_frame h2 j hj, open_one_ep_frame h1 j hj]

theorem acm_open_data_frame (t : List CdchItf) (i : Nat) (bs : List Nat)
    (off : Nat) (j : Nat) (hj : j ≠ i) :
    (acm_open_data t i bs off).1[j]? = t[j]? := by
  rw [acm_open_data]
  by_cases hc : descType bs off = 4 ∧ dByte bs (off + 5) = 0x0A
  · rw [if_pos hc]
    exact open_ep_stream_pair_frame t i bs _ j hj
  · rw [if_neg hc]

theorem make_new_itf_eq (d n sub prot : Nat) :
    ∀ (tbl : List CdchItf) (r : Nat × List CdchItf),
      make_new_itf d n sub prot tbl = some r →
      firstFree tbl = some r.1 ∧
      ∃ s0, tbl[r.1]? = some s0 ∧ s0.daddr = 0 ∧
        r.2 = tbl.set r.1 { s0 with
                            daddr := d, bInterfaceNumber := n,
                            bInterfaceSubClass := sub, bInterfaceProtocol := prot,
                            line_state := 0 }
  | [], r, h => by cases h
  | s :: rest, r, h => by
    rw [make_new_itf] at h
    by_cases hd : s.daddr = 0
    · rw [if_pos hd, Option.some_inj] at h
      subst h
      refine ⟨by rw [firstFree, if_pos hd], s, by simp, hd, by simp⟩
    · rw [if_neg hd] at h
      cases hrec : make_new_itf d n sub prot rest with
      | none => rw [hrec] at h; cases h
      | some r0 =>
        rw [hrec] at h
        simp only [Option.map_some', Option.some_inj] at h
        subst h
        obtain ⟨hff, s0, hs0, hs0d, ht⟩ := make_new_itf_eq d n sub prot rest r0 hrec
        refine ⟨by rw [firstFree, if_neg hd, hff]; rfl, s0, by simpa using hs0,
                hs0d, ?_⟩
        rw [ht]
        rfl

theorem ftdi_open_frame (tbl : List CdchItf) (daddr : Nat) (bs : List Nat)
    (max_len j : Nat) (hj : firstFree tbl ≠ some j) :
    (ftdi_open tbl daddr bs max_len).1[j]? = tbl[j]? := by
  rw [ftdi_open]
  by_cases h1 : dByte bs 6 = 0xff ∧ dByte bs 7 = 0xff ∧ dByte bs 4 = 2
  · rw [if_pos h1]
    by_cases h2 : 9 + 2 * 7 ≤ max_len
    · rw [if_pos h2]
      cases hm : make_new_itf daddr (dByte bs 2) (dByte bs 6) (dByte bs 7) tbl with
      | none => rfl
      | some r =>
        dsimp only
        obtain ⟨hff, s0, hs0, hs0d, ht⟩ := make_new_itf_eq _ _ _ _ tbl r hm
        have hji : j ≠ r.1 := fun h => hj (by rw [hff, h])
        rw [open_ep_stream_pair_frame _ r.1 bs _ j hji,
            modifySlot_frame _ r.1 _ j hji, ht,
            List.getElem?_set_ne (fun h => hji h.symm)]
    · rw [if_neg h2]
  · rw [if_neg h1]

theorem cp210x_open_frame (tbl : List CdchItf) (daddr : Nat) (bs : List Nat)
    (max_len j : Nat) (hj : firstFree tbl ≠ some j) :
    (cp210x_open tbl daddr bs max_len).1[j]? = tbl[j]? := by
  rw [cp210x_open]
  by_cases h1 : dByte bs 6 = 0 ∧ dByte bs 7 = 0 ∧ dByte bs 4 = 2
  · rw [if_pos h1]
    by_cases h2 : 9 + 2 * 7 ≤ max_len
    · rw [if_pos h2]
      cases hm : make_new_itf daddr (dByte bs 2) (dByte bs 6) (dByte bs 7) tbl with
      | none => rfl
      | some r =>
        dsimp only
        obtain ⟨hff, s0, hs0, hs0d, ht⟩ := make_new_itf_eq _ _ _ _ tbl r hm
        have hji : j ≠ r.1 := fun h => hj (by rw [hff, h])
        rw [open_ep_stream_pair_frame _ r.1 bs _ j hji,
            modifySlot_frame _ r.1 _ j hji, ht,
            List.getElem?_set_ne (fun h => hji h.symm)]
    · rw [if_neg h2]
  · rw [if_neg h1]

theorem acm_open_frame (tbl : List CdchItf) (daddr : Nat) (bs : List Nat)
    (max_len j : Nat) (hj : firstFree tbl ≠ some j) :
    (acm_open tbl daddr bs max_len).1[j]? = tbl[j]? := by
  rw [acm_open]
  cases hm : make_new_itf daddr (dByte bs 2) (dByte bs 6) (dByte bs 7) tbl with
  | none => rfl
  | some r =>
    dsimp only
    obtain ⟨hff, s0, hs0, hs0d, ht⟩ := make_new_itf_eq _ _ _ _ tbl r hm
    have hji : j ≠ r.1 := fun h => hj (by rw [hff, h])
    have hset : (tbl.set r.1 { s0 with
        daddr := daddr, bInterfaceNumber := dByte bs 2,
        bInterfaceSubClass := dByte bs 6, bInterfaceProtocol := dByte bs 7,
        line_state := 0 })[j]? = tbl[j]? :=
      List.getElem?_set_ne (fun h => hji h.symm)
    cases hw : (acm_walk bs max_len max_len (descNext bs 0) none).1 with
    | none =>
      dsimp only
      by_cases h4 : dByte bs 4 = 1
      · rw [if_pos h4]
        by_cases h5 : descType bs (acm_walk bs max_len max_len (descNext bs 0) none).2 = 5
        · rw [if_pos h5]
          rw [acm_open_data_frame _ r.1 bs _ j hji, modifySlot_frame _ r.1 _ j hji,
              modifySlot_frame _ r.1 _ j hji, ht, hset]
        · rw [if_neg h5]
          dsimp only
          rw [modifySlot_frame _ r.1 _ j hji, ht, hset]
      · rw [if_neg h4]
        rw [acm_open_data_frame _ r.1 bs _ j hji, modifySlot_frame _ r.1 _ j hji,
            ht, hset]
    | some c =>
      dsimp only
      by_cases h4 : dByte bs 4 = 1
      · rw [if_pos h4]
        by_cases h5 : descType bs (acm_walk bs max_len max_len (descNext bs 0) none).2 = 5
        · rw [if_pos h5]
          rw [acm_open_data_frame _ r.1 bs _ j hji, modifySlot_frame _ r.1 _ j hji,
              modifySlot_frame _ r.1 _ j hji, modifySlot_frame _ r.1 _ j hji, ht, hset]
        · rw [if_neg h5]
          dsimp only
          rw [modifySlot_frame _ r.1 _ j hji, modifySlot_frame _ r.1 _ j hji, ht, hset]
      · rw [if_neg h4]
        rw [acm_open_data_frame _ r.1 bs _ j hji, modifySlot_frame _ r.1 _ j hji,
            modifySlot_frame _ r.1 _ j hji, ht, hset]

/-- A vendor interface descriptor block whose two endpoints are interrupt
(bmAttributes = 3) instead of bulk: 9-byte interface descriptor
(sub_class = protocol = 0xff, 2 endpoints) followed by a 7-byte endpoint
descriptor with the wrong transfer type. -/
def c3Bytes : List Nat :=
  [9, 4, 0, 0, 2, 0xff, 0xff, 0xff, 0,
   7, 5, 0x81, 3, 64, 0, 0]

/-- Counterexample to C3 as stated: `ftdi_open` on a descriptor block with a
non-bulk endpoint returns failure, yet slot 0 — free before the call — is
left allocated (its `daddr` is stamped nonzero). -/
theorem C3_failed_open_no_slot_counterexample :
    ([initSlot 8 4 8 4][(0 : Nat)]?).map CdchItf.daddr = some 0 ∧
    (ftdi_open [initSlot 8 4 8 4] 1 c3Bytes 23).2 = false ∧
    ¬(((ftdi_open [initSlot 8 4 8 4] 1 c3Bytes 23).1[0]?).map CdchItf.daddr
        = some 0) := by decide

/-- Claim C3 (amended): a failed open returns failure; failures detected
before slot allocation (the FTDI/CP210x header and length checks) leave the
table completely unchanged, and in every case slots other than the first free
slot — the one the allocation claims — are untouched; a failure after
allocation may leave that single slot stamped. -/
theorem C3_failed_open_no_slot_amended
    (tbl : List CdchItf) (daddr : Nat) (bs : List Nat) (max_len : Nat) :
    (¬(dByte bs 6 = 0xff ∧ dByte bs 7 = 0xff ∧ dByte bs 4 = 2 ∧
        9 + 2 * 7 ≤ max_len) →
      ftdi_open tbl daddr bs max_len = (tbl, false)) ∧
    (¬(dByte bs 6 = 0 ∧ dByte bs 7 = 0 ∧ dByte bs 4 = 2 ∧
        9 + 2 * 7 ≤ max_len) →
      cp210x_open tbl daddr bs max_len = (tbl, false)) ∧
    (∀ j, firstFree tbl ≠ some j →
      (ftdi_open tbl daddr bs max_len).1[j]? = tbl[j]? ∧
      (cp210x_open tbl daddr bs max_len).1[j]? = tbl[j]? ∧
      (acm_open tbl daddr bs max_len).1[j]? = tbl[j]?) := by
  refine ⟨?_, ?_, ?_⟩
  · intro h
    rw [ftdi_open]
    by_cases h1 : dByte bs 6 = 0xff ∧ dByte bs 7 = 0xff ∧ dByte bs 4 = 2
    · have h2 : ¬(9 + 2 * 7 ≤ max_len) := fun hl => h ⟨h1.1, h1.2.1, h1.2.2, hl⟩
      rw [if_pos h1, if_neg h2]
    · rw [if_neg h1]
  · intro h
    rw [cp210x_open]
    by_cases h1 : dByte bs 6 = 0 ∧ dByte bs 7 = 0 ∧ dByte bs 4 = 2
    · have h2 : ¬(9 + 2 * 7 ≤ max_len) := fun hl => h ⟨h1.1, h1.2.1, h1.2.2, hl⟩
      rw [if_pos h1, if_neg h2]
    · rw [if_neg h1]
  · intro j hj
    exact ⟨ftdi_open_frame tbl daddr bs max_len j hj,
           cp210x_open_frame tbl daddr bs max_len j hj,
           acm_open_frame tbl daddr bs max_len j hj⟩

/-- Witness for the amended C3: a truncated FTDI descriptor range
(max_len = 10) fails with the table unchanged, and an occupied-slot table has
no first free slot, so a failed open touches nothing. -/
theorem C3_failed_open_no_slot_amended_witness :
    ¬(dByte c3Bytes 6 = 0xff ∧ dByte c3Bytes 7 = 0xff ∧ dByte c3Bytes 4 = 2 ∧
       9 + 2 * 7 ≤ 10) ∧
    ftdi_open [initSlot 8 4 8 4] 1 c3Bytes 10 = ([initSlot 8 4 8 4], false) ∧
    (ftdi_open [wSlotAcm] 1 c3Bytes 23).1[0]? = [wSlotAcm][(0 : Nat)]? :=
  ⟨by decide,
   (C3_failed_open_no_slot_amended [initSlot 8 4 8 4] 1 c3Bytes 10).1 (by decide),
   ((C3_failed_open_no_slot_amended [wSlotAcm] 1 c3Bytes 23).2.2 0 (by decide)).1⟩

/-! ## Claim C7 -/

/-- Pairwise distinctness of (device address, interface number) among
occupied slots. -/
def ItfPairwise (tbl : List CdchItf) : Prop :=
  ∀ (i j : Nat) (si sj : CdchItf), tbl[i]? = some si → tbl[j]? = some sj →
    i ≠ j → si.daddr ≠ 0 → sj.daddr ≠ 0 →
    ¬(si.daddr = sj.daddr ∧ si.bInterfaceNumber = sj.bInterfaceNumber)

/-- Table states reachable from `cdch_init` via allocations and closes.  The
allocation step carries the host-stack precondition that the opened
(device address, interface number) pair is not already present among the
occupied slots, and that device addresses are nonzero. -/
inductive Reach : List CdchItf → Prop where
  | init (n a b c d : Nat) : Reach (cdch_init n a b c d)
  | alloc (tbl : List CdchItf) (daddr itfNum sub prot : Nat)
      (r : Nat × List CdchItf) :
      Reach tbl → daddr ≠ 0 →
      (∀ s ∈ tbl, s.daddr ≠ 0 →
        ¬(s.daddr = daddr ∧ s.bInterfaceNumber = itfNum)) →
      make_new_itf daddr itfNum sub prot tbl = some r →
      Reach r.2
  | close (tbl : List CdchItf) (cbs : Callbacks) (d : Nat) :
      Reach tbl → Reach (cdch_close cbs tbl d).1

theorem cdch_init_getQ_daddr {n a b c d i : Nat} {s : CdchItf}
    (h : (cdch_init n a b c d)[i]? = some s) : s.daddr = 0 := by
  have hm := memOfGetQ h
  rw [cdch_init] at hm
  rw [List.eq_of_mem_replicate hm]
  rfl

theorem reach_pairwise {tbl : List CdchItf} (h : Reach tbl) : ItfPairwise tbl := by
  induction h with
  | init n a b c d =>
    intro i j si sj hi hj hij hsi hsj
    exact absurd (cdch_init_getQ_daddr hi) hsi
  | alloc tbl daddr itfNum sub prot r hR hd hside hmake ih =>
    obtain ⟨hff, s0, hs0, hs0d, ht⟩ := make_new_itf_eq _ _ _ _ tbl r hmake
    intro i j si sj hi hj hij hsi hsj hpair
    rw [ht] at hi hj
    by_cases hir : i = r.1
    · subst hir
      have hjr : j ≠ r.1 := fun hh => hij hh.symm
      rw [List.getElem?_set_eq_of_lt _ (ltOfGetQ hs0), Option.some_inj] at hi
      rw [List.getElem?_set_ne (fun hh => hjr hh.symm)] at hj
      subst hi
      simp only at hpair
      exact hside sj (memOfGetQ hj) hsj ⟨hpair.1.symm, hpair.2.symm⟩
    · rw [List.getElem?_set_ne (fun hh => hir hh.symm)] at hi
      by_cases hjr : j = r.1
      · subst hjr
        rw [List.getElem?_set_eq_of_lt _ (ltOfGetQ hs0), Option.some_inj] at hj
        subst hj
        simp only at hpair
        exact hside si (memOfGetQ hi) hsi ⟨hpair.1, hpair.2⟩
      · rw [List.getElem?_set_ne (fun hh => hjr hh.symm)] at hj
        exact ih i j si sj hi hj hij hsi hsj hpair
  | close tbl cbs d hR ih =>
    intro i j si sj hi hj hij hsi hsj
    have hkey : ∀ (k : Nat) (sk : CdchItf), (cdch_close cbs tbl d).1[k]? = some sk →
        sk.daddr ≠ 0 → tbl[k]? = some sk := by
      intro k sk hk hocc
      rw [cdch_close, close_from_getQ cbs d tbl 0 k] at hk
      cases hm : tbl[k]? with
      | none => rw [hm] at hk; cases hk
      | some s =>
        rw [hm] at hk
        simp only [Option.map_some', Option.some_inj] at hk
        by_cases hsd : s.daddr = d
        · rw [if_pos hsd] at hk
          rw [← hk] at hocc
          simp [closeClean] at hocc
        · rw [if_neg hsd] at hk
          rw [hk]
    exact ih i j si sj (hkey i si hi hsi) (hkey j sj hj hsj) hij hsi hsj

theorem itf_scan_exact :
    ∀ (tbl : List CdchItf) (i : Nat) (s : CdchItf),
      ItfPairwise tbl → tbl[i]? = some s → s.daddr ≠ 0 →
      itf_scan s.daddr s.bInterfaceNumber tbl = some i
  | [], i, s, _, h, _ => by cases h
  | p :: rest, i, s, hpw, h, hocc => by
    cases i with
    | zero =>
      simp only [List.getElem?_cons_zero, Option.some_inj] at h
      subst h
      rw [itf_scan, if_pos ⟨rfl, rfl⟩]
    | succ n =>
      have hrest : rest[n]? = some s := by simpa using h
      have hpwrest : ItfPairwise rest := by
        intro i j si sj hi hj hij hsi hsj
        exact hpw (i + 1) (j + 1) si sj (by simpa using hi) (by simpa using hj)
          (by omega) hsi hsj
      have hne : ¬(p.daddr = s.daddr ∧ p.bInterfaceNumber = s.bInterfaceNumber) := by
        intro hc
        have hpd : p.daddr ≠ 0 := by rw [hc.1]; exact hocc
        exact hpw 0 (n + 1) p s (by simp) h (by omega) hpd hocc hc
      rw [itf_scan, if_neg hne,
          itf_scan_exact rest n s hpwrest hrest hocc]
      rfl

/-- Claim C7: in every table state reachable from init via allocate and close
(with the host stack never opening a (device address, interface number) pair
already present), lookup by an occupied slot's (daddr, interface number)
returns exactly that slot's index; equivalently, the pair is unique among
occupied slots. -/
theorem C7_lookup_returns_owning_slot
    (tbl : List CdchItf) (hR : Reach tbl) (i : Nat) (s : CdchItf)
    (hi : tbl[i]? = some s) (hocc : s.daddr ≠ 0) :
    tuh_cdc_itf_get_index tbl s.daddr s.bInterfaceNumber = some i ∧
    ItfPairwise tbl :=
  ⟨itf_scan_exact tbl i s (reach_pairwise hR) hi hocc, reach_pairwise hR⟩

/-- The slot stamped by the witness allocation below. -/
def c7Slot : CdchItf :=
  { initSlot 4 4 4 4 with daddr := 1, bInterfaceNumber := 3 }

/-- The witness table: allocation of (daddr 1, interface 3) into a fresh
2-slot table. -/
def c7Tbl : List CdchItf := [c7Slot, initSlot 4 4 4 4]

/-- Witness for C7: in the allocated table, lookup by (1, 3) returns slot 0. -/
theorem C7_lookup_returns_owning_slot_witness :
    tuh_cdc_itf_get_index c7Tbl 1 3 = some 0 :=
  (C7_lookup_returns_owning_slot c7Tbl
    (Reach.alloc (cdch_init 2 4 4 4 4) 1 3 0 0 (0, c7Tbl)
      (Reach.init 2 4 4 4 4) (by decide) (by decide) (by decide))
    0 c7Slot (by decide) (by decide)).1
